import Mathlib

/-!
Shallow embedding of the Arcium API remote-client component
(src/src/arcium/arcium-api.controller.ts).  The remote network, the clock
and the cryptographic primitives are modelled as an explicit environment
record; each outbound HTTP call becomes a lookup in that record, a thrown
exception becomes the error branch of an Except value, and the poll loop
becomes a fuel-bounded recursion over discrete time in which polls are
instantaneous and each sleep advances the clock by exactly the poll
interval.
-/

namespace ArciumSpec

/-- A JavaScript runtime value, as far as this service manipulates them:
undefined, null, booleans, numbers (modelled as rationals, the only
numeric operations used are truthiness tests), strings, arrays and plain
objects. -/
inductive JSValue where
  | undefined : JSValue
  | null : JSValue
  | bool : Bool → JSValue
  | num : ℚ → JSValue
  | str : String → JSValue
  | arr : List JSValue → JSValue
  | obj : List (String × JSValue) → JSValue

/-- JavaScript truthiness: undefined, null, false, 0 and the empty string
are falsy; every array and object is truthy. -/
def truthy : JSValue → Bool
  | .undefined => false
  | .null => false
  | .bool b => b
  | .num q => q != 0
  | .str s => s != ""
  | .arr _ => true
  | .obj _ => true

/-- The JavaScript expression `v \x7c\x7c d`: the left operand if truthy,
the default otherwise. -/
def jsOr (v d : JSValue) : JSValue :=
  if truthy v then v else d

/-- The JavaScript expression `v[i]` for a numeric index: throws a
TypeError on undefined and null, reads the element (or undefined past the
end) on an array, a character on a string, the property named by the
index on an object, and undefined on the remaining primitives. -/
def jsIndex : JSValue → Nat → Except String JSValue
  | .undefined, i =>
      .error ("TypeError: cannot read property " ++ toString i ++ " of undefined")
  | .null, i =>
      .error ("TypeError: cannot read property " ++ toString i ++ " of null")
  | .arr xs, i => .ok (xs.getD i .undefined)
  | .str s, i =>
      match s.toList.get? i with
      | some c => .ok (.str (String.mk [c]))
      | none => .ok .undefined
  | .obj fs, i =>
      match fs.find? (fun p => p.1 == toString i) with
      | some p => .ok p.2
      | none => .ok .undefined
  | _, _ => .ok .undefined

/-- String interpolation of an optional string, as in the template
literals of the source: an absent value prints as "undefined". -/
def errString : Option String → String
  | some s => s
  | none => "undefined"

/-- Computation status values reported by the remote network
(the status field of ArciumComputationStatus). -/
inductive CompStatus where
  | pending
  | processing
  | completed
  | failed
deriving DecidableEq

mutual

/-- JSON.stringify on the value model (abstracts the serialization of the
inputs array fed to the cipher; its exact text influences nothing but the
ciphertext). -/
def jsonStringify : JSValue → String
  | .undefined => "null"
  | .null => "null"
  | .bool true => "true"
  | .bool false => "false"
  | .num q => toString q
  | .str s => "\"" ++ s ++ "\""
  | .arr xs => "[" ++ jsonStringifyList xs ++ "]"
  | .obj fs => "\x7b" ++ jsonStringifyFields fs ++ "\x7d"

def jsonStringifyList : List JSValue → String
  | [] => ""
  | [x] => jsonStringify x
  | x :: xs => jsonStringify x ++ "," ++ jsonStringifyList xs

def jsonStringifyFields : List (String × JSValue) → String
  | [] => ""
  | [(k, v)] => "\"" ++ k ++ "\":" ++ jsonStringify v
  | (k, v) :: fs => "\"" ++ k ++ "\":" ++ jsonStringify v ++ "," ++ jsonStringifyFields fs

end

/-- ArciumComputationRequest: functionName, inputs, optional metadata. -/
structure ArciumComputationRequest where
  functionName : String
  inputs : List JSValue
  metadata : Option JSValue := none

/-- ArciumComputationResult: the value returned by the composite
operation.  An absent result field is the JavaScript undefined. -/
structure ArciumComputationResult where
  success : Bool
  result : JSValue := .undefined
  computationId : Option String := none
  error : Option String := none
  executionTime : Option Nat := none
  gasUsed : Option Nat := none

/-- ArciumComputationStatus: one status snapshot as assembled by
getComputationStatus from the remote response. -/
structure ArciumComputationStatus where
  id : String
  status : CompStatus
  progress : JSValue
  result : JSValue
  error : Option String
  createdAt : String
  completedAt : Option String

/-- ArciumNetworkStatus: the network health summary. -/
structure ArciumNetworkStatus where
  connected : JSValue
  activeNodes : JSValue
  averageLatency : JSValue
  networkHealth : JSValue
  mxeCount : JSValue
  totalComputations : JSValue

/-- One entry of the remote response to GET /api/v1/mxe/available. -/
structure MXEInfo where
  id : String
  publicKey : String
  capacity : Nat

/-- The fields of the remote response body for one computation-status
lookup (GET /api/v1/computations/id). -/
structure StatusData where
  status : CompStatus
  progress : JSValue
  result : JSValue
  error : Option String
  createdAt : String
  completedAt : Option String

/-- The fields of the remote response body for GET /api/v1/network/status. -/
structure RawNetworkStatus where
  connected : JSValue
  activeNodes : JSValue
  averageLatency : JSValue
  health : JSValue
  mxeCount : JSValue
  totalComputations : JSValue

/-- The encrypted-inputs record produced by encryptInputs. -/
structure EncryptedInputs where
  ciphertext : String
  nonce : String
  publicKey : String

/-- The environment a run of the service observes: the response of each
remote endpoint (an error value is a transport failure of that call), the
outcome of the local cryptographic primitives, and the clock.  Status
polls are indexed by their ordinal number within the run. -/
structure NetworkEnv where
  mxeAvailable : Except String (List MXEInfo)
  rsaKeyGen : Except String (String × String)
  nonceHex : String
  aesEncrypt : String → String → Except String String
  submitResp : Except String (Option String)
  statusAt : Nat → Except String StatusData
  networkStatusResp : Except String RawNetworkStatus
  historyResp : Nat → Except String JSValue
  functionsResp : Except String JSValue
  nowISO : String

/-- getAvailableMXE: one GET of the node list; returns the first entry,
or null (here: none) when the list is empty or the call fails. -/
def getAvailableMXE (env : NetworkEnv) : Option MXEInfo :=
  match env.mxeAvailable with
  | .error _ => none
  | .ok [] => none
  | .ok (mxe :: _) => some ⟨mxe.id, mxe.publicKey, mxe.capacity⟩

/-- encryptInputs: generates a key pair, serializes the inputs, encrypts
them under a key derived from the node public-key string; any failure of
a primitive is replaced by the fixed message "Input encryption failed". -/
def encryptInputs (env : NetworkEnv) (inputs : List JSValue)
    (mxePublicKey : String) : Except String EncryptedInputs :=
  match env.rsaKeyGen with
  | .error _ => .error "Input encryption failed"
  | .ok (pub, _) =>
    match env.aesEncrypt mxePublicKey (jsonStringify (.arr inputs)) with
    | .error _ => .error "Input encryption failed"
    | .ok ct => .ok ⟨ct, env.nonceHex, pub⟩

/-- submitComputation: one POST; both a transport failure and a response
without a (truthy) computationId surface as the single message
"Computation submission failed", because the inner throw for a missing
identifier is caught by the same catch block that wraps the transport
call. -/
def submitComputation (env : NetworkEnv) : Except String String :=
  match env.submitResp with
  | .error _ => .error "Computation submission failed"
  | .ok none => .error "Computation submission failed"
  | .ok (some cid) =>
      if cid = "" then .error "Computation submission failed" else .ok cid

/-- getComputationStatus at the k-th poll of the given run: maps the
remote body onto an ArciumComputationStatus, replacing a transport
failure by the thrown message "Failed to retrieve computation status". -/
def getComputationStatusAt (env : NetworkEnv) (computationId : String)
    (k : Nat) : Except String ArciumComputationStatus :=
  match env.statusAt k with
  | .error _ => .error "Failed to retrieve computation status"
  | .ok d =>
      .ok ⟨computationId, d.status, jsOr d.progress (.num 0), d.result,
           d.error, d.createdAt, d.completedAt⟩

/-- maxWaitTime: the 300000 ms polling ceiling. -/
def maxWaitTime : Nat := 300000

/-- pollInterval: the 5000 ms delay between polls. -/
def pollInterval : Nat := 5000

/-- The payload of a finished wait: the result data and the gasUsed the
loop reports (always 0 in the source). -/
structure WaitResult where
  data : JSValue
  gasUsed : Option Nat

/-- Outcome of the wait loop together with the wall-clock time elapsed
when it returned or threw. -/
structure WaitReturn where
  outcome : Except String WaitResult
  elapsed : Nat

/-- The while loop of waitForComputationCompletion, one constructor case
per iteration: at poll index k the elapsed time is k * pollInterval; the
loop runs while that is below maxWaitTime, returns on completed, throws
on failed or on a poll error, and throws "Computation timeout" once the
ceiling is reached.  The fuel argument only bounds the recursion; called
with fuel above maxWaitTime / pollInterval it is never exhausted. -/
def waitFrom (env : NetworkEnv) (computationId : String) :
    Nat → Nat → WaitReturn
  | 0, k => ⟨.error "Computation timeout", k * pollInterval⟩
  | fuel + 1, k =>
    if k * pollInterval < maxWaitTime then
      match getComputationStatusAt env computationId k with
      | .error e => ⟨.error e, k * pollInterval⟩
      | .ok status =>
        if status.status = .completed then
          ⟨.ok ⟨status.result, some 0⟩, k * pollInterval⟩
        else if status.status = .failed then
          ⟨.error ("Computation failed: " ++ errString status.error),
           k * pollInterval⟩
        else
          waitFrom env computationId fuel (k + 1)
    else
      ⟨.error "Computation timeout", k * pollInterval⟩

/-- waitForComputationCompletion: run the poll loop from poll 0 with
enough fuel that only the time ceiling can stop it. -/
def waitForComputationCompletion (env : NetworkEnv)
    (computationId : String) : WaitReturn :=
  waitFrom env computationId (maxWaitTime / pollInterval + 1) 0

/-- The JavaScript expression `g \x7c\x7c 0` on an optional number. -/
def numOrZero : Option Nat → Nat
  | some g => if g = 0 then 0 else g
  | none => 0

/-- performEncryptedComputation: the four sequential steps — node
discovery, input encryption, submission, polling — with every thrown
error caught at the top and converted into a failure result carrying the
message and the elapsed time.  Steps one to three are instantaneous in
the discrete time model, so only the wait loop contributes to
executionTime. -/
def performEncryptedComputation (env : NetworkEnv)
    (request : ArciumComputationRequest) : ArciumComputationResult :=
  match getAvailableMXE env with
  | none =>
      { success := false, error := some "No available MXE found",
        executionTime := some 0 }
  | some mxe =>
    match encryptInputs env request.inputs mxe.publicKey with
    | .error e =>
        { success := false, error := some e, executionTime := some 0 }
    | .ok _ =>
      match submitComputation env with
      | .error e =>
          { success := false, error := some e, executionTime := some 0 }
      | .ok computationId =>
        match waitForComputationCompletion env computationId with
        | ⟨.error e, t⟩ =>
            { success := false, error := some e,
              executionTime := some t }
        | ⟨.ok r, t⟩ =>
            { success := true, result := r.data,
              computationId := some computationId,
              executionTime := some t,
              gasUsed := some (numOrZero r.gasUsed) }

/-- getNetworkStatus: one GET; on success each field of the remote body
is defaulted through a truthiness check, on any failure the fixed
disconnected/zero record is returned instead of an error. -/
def getNetworkStatus (env : NetworkEnv) : ArciumNetworkStatus :=
  match env.networkStatusResp with
  | .ok d =>
      ⟨jsOr d.connected (.bool false), jsOr d.activeNodes (.num 0),
       jsOr d.averageLatency (.num 0), jsOr d.health (.str "unknown"),
       jsOr d.mxeCount (.num 0), jsOr d.totalComputations (.num 0)⟩
  | .error _ =>
      ⟨.bool false, .num 0, .num 0, .str "error", .num 0, .num 0⟩

/-- Output record of performEncryptedRiskAssessment. -/
structure RiskAssessmentOut where
  riskScore : JSValue
  approved : JSValue
  maxAmount : JSValue
  confidence : JSValue

/-- Output record of performEncryptedCollateralValidation (the source
field names are valid, ratio, requiredRatio). -/
structure CollateralValidationOut where
  valid : JSValue
  ratioValue : JSValue
  requiredRatioValue : JSValue

/-- Output record of performEncryptedInterestCalculation. -/
structure InterestCalculationOut where
  interest : JSValue
  totalAmount : JSValue
  monthlyPayment : JSValue

/-- The request built by performEncryptedRiskAssessment. -/
def riskRequest (env : NetworkEnv) (encryptedParams : JSValue) :
    ArciumComputationRequest :=
  ⟨"riskAssessment", [encryptedParams],
   some (.obj [("type", .str "risk_assessment"),
               ("timestamp", .str env.nowISO)])⟩

/-- performEncryptedRiskAssessment: run the composite operation; throw a
domain error when it reports failure, otherwise unpack the first four
positions of the opaque result with truthiness-based defaults.  The
positional reads can themselves throw (on an undefined or null payload)
and nothing catches that here. -/
def performEncryptedRiskAssessment (env : NetworkEnv)
    (encryptedParams : JSValue) : Except String RiskAssessmentOut :=
  let result := performEncryptedComputation env (riskRequest env encryptedParams)
  if result.success then
    (jsIndex result.result 0).bind fun r0 =>
    (jsIndex result.result 1).bind fun r1 =>
    (jsIndex result.result 2).bind fun r2 =>
    (jsIndex result.result 3).bind fun r3 =>
    .ok ⟨jsOr r0 (.num 50), jsOr r1 (.bool false), jsOr r2 (.num 0),
         jsOr r3 (.num 0.5)⟩
  else
    .error ("Risk assessment failed: " ++ errString result.error)

/-- The request built by performEncryptedCollateralValidation. -/
def collateralRequest (env : NetworkEnv) (collateralValue loanAmount : ℚ) :
    ArciumComputationRequest :=
  ⟨"collateralValidation", [.num collateralValue, .num loanAmount],
   some (.obj [("type", .str "collateral_validation"),
               ("timestamp", .str env.nowISO)])⟩

/-- performEncryptedCollateralValidation: same shape as the risk wrapper,
unpacking three positions with defaults false, 0 and 1.5. -/
def performEncryptedCollateralValidation (env : NetworkEnv)
    (collateralValue loanAmount : ℚ) : Except String CollateralValidationOut :=
  let result := performEncryptedComputation env
    (collateralRequest env collateralValue loanAmount)
  if result.success then
    (jsIndex result.result 0).bind fun r0 =>
    (jsIndex result.result 1).bind fun r1 =>
    (jsIndex result.result 2).bind fun r2 =>
    .ok ⟨jsOr r0 (.bool false), jsOr r1 (.num 0), jsOr r2 (.num 1.5)⟩
  else
    .error ("Collateral validation failed: " ++ errString result.error)

/-- The request built by performEncryptedInterestCalculation. -/
def interestRequest (env : NetworkEnv) (principal rate time : ℚ) :
    ArciumComputationRequest :=
  ⟨"interestCalculation", [.num principal, .num rate, .num time],
   some (.obj [("type", .str "interest_calculation"),
               ("timestamp", .str env.nowISO)])⟩

/-- performEncryptedInterestCalculation: unpacks three positions with
default 0 each. -/
def performEncryptedInterestCalculation (env : NetworkEnv)
    (principal rate time : ℚ) : Except String InterestCalculationOut :=
  let result := performEncryptedComputation env
    (interestRequest env principal rate time)
  if result.success then
    (jsIndex result.result 0).bind fun r0 =>
    (jsIndex result.result 1).bind fun r1 =>
    (jsIndex result.result 2).bind fun r2 =>
    .ok ⟨jsOr r0 (.num 0), jsOr r1 (.num 0), jsOr r2 (.num 0)⟩
  else
    .error ("Interest calculation failed: " ++ errString result.error)

/-- getComputationHistory: one GET parameterized by the limit; the
response body defaulted through a truthiness check on success, the empty
array on any failure. -/
def getComputationHistory (env : NetworkEnv) (limit : Nat := 50) : JSValue :=
  match env.historyResp limit with
  | .ok d => jsOr d (.arr [])
  | .error _ => .arr []

/-- getAvailableFunctions: one GET; the response body defaulted through a
truthiness check on success, the hardcoded three function names on any
failure. -/
def getAvailableFunctions (env : NetworkEnv) : JSValue :=
  match env.functionsResp with
  | .ok d => jsOr d (.arr [])
  | .error _ =>
      .arr [.str "riskAssessment", .str "collateralValidation",
            .str "interestCalculation"]

/-- A poll that the wait loop steps over: the remote call succeeded and
reported a non-terminal status. -/
def pollNonterminal (env : NetworkEnv) (j : Nat) : Bool :=
  match env.statusAt j with
  | .ok d => d.status == .pending || d.status == .processing
  | .error _ => false

/-- Stepping past a successful non-terminal poll consumes one unit of
fuel and advances the poll index. -/
lemma waitFrom_skip (env : NetworkEnv) (cid : String) (fuel k : Nat)
    (hk : k * pollInterval < maxWaitTime)
    (hp : pollNonterminal env k = true) :
    waitFrom env cid (fuel + 1) k = waitFrom env cid fuel (k + 1) := by
  unfold pollNonterminal at hp
  cases h : env.statusAt k with
  | error e => rw [h] at hp; simp at hp
  | ok d =>
    rw [h] at hp
    simp only [waitFrom, getComputationStatusAt, h, if_pos hk]
    cases hs : d.status <;> simp_all

/-- Walking the loop across a block of successful non-terminal polls. -/
lemma waitFrom_reach (env : NetworkEnv) (cid : String) :
    ∀ (n fuel k : Nat),
      (∀ j, k ≤ j → j < k + n → pollNonterminal env j = true) →
      (k + n) * pollInterval ≤ maxWaitTime →
      waitFrom env cid (fuel + n) k = waitFrom env cid fuel (k + n) := by
  intro n
  induction n with
  | zero => intro fuel k _ _; rfl
  | succ n ih =>
    intro fuel k hpoll hceil
    have hk : k * pollInterval < maxWaitTime := by
      have : (k + (n + 1)) * pollInterval ≤ maxWaitTime := hceil
      simp only [pollInterval, maxWaitTime] at this ⊢
      omega
    have hstep : waitFrom env cid ((fuel + n) + 1) k
        = waitFrom env cid (fuel + n) (k + 1) :=
      waitFrom_skip env cid (fuel + n) k hk
        (hpoll k (Nat.le_refl k) (by omega))
    have hrest : waitFrom env cid (fuel + n) (k + 1)
        = waitFrom env cid fuel ((k + 1) + n) := by
      apply ih fuel (k + 1)
      · intro j hj1 hj2
        exact hpoll j (by omega) (by omega)
      · have : (k + 1) + n = k + (n + 1) := by omega
        rw [this]; exact hceil
    have harr : fuel + (n + 1) = (fuel + n) + 1 := by omega
    have hidx : (k + 1) + n = k + (n + 1) := by omega
    rw [harr, hstep, hrest, hidx]

/-- After a prefix of successful non-terminal polls the whole wait equals
the loop restarted at poll k with the matching fuel. -/
lemma waitFrom_after_skips (env : NetworkEnv) (cid : String) (k : Nat)
    (hk : k * pollInterval ≤ maxWaitTime)
    (hprev : ∀ j, j < k → pollNonterminal env j = true) :
    waitForComputationCompletion env cid
      = waitFrom env cid (61 - k) k := by
  have hk60 : k ≤ 60 := by
    simp only [pollInterval, maxWaitTime] at hk; omega
  have h61 : (61 - k) + k = 61 := by omega
  have hmain : waitFrom env cid ((61 - k) + k) 0
      = waitFrom env cid (61 - k) (0 + k) := by
    apply waitFrom_reach env cid k (61 - k) 0
    · intro j _ hj; exact hprev j (by omega)
    · simpa using hk
  have hfuel : maxWaitTime / pollInterval + 1 = (61 - k) + k := by
    simp only [pollInterval, maxWaitTime]; omega
  unfold waitForComputationCompletion
  rw [hfuel, hmain]
  congr 1
  omega

/-- Whenever the wait loop returns successfully it reports gasUsed 0. -/
lemma waitFrom_ok_gasUsed (env : NetworkEnv) (cid : String) :
    ∀ (fuel k : Nat) (r : WaitResult) (t : Nat),
      waitFrom env cid fuel k = ⟨.ok r, t⟩ → r.gasUsed = some 0 := by
  intro fuel
  induction fuel with
  | zero => intro k r t h; simp [waitFrom] at h
  | succ fuel ih =>
    intro k r t h
    simp only [waitFrom] at h
    by_cases hk : k * pollInterval < maxWaitTime
    · rw [if_pos hk] at h
      cases hs : getComputationStatusAt env cid k with
      | error e => rw [hs] at h; simp at h
      | ok status =>
        rw [hs] at h
        dsimp only at h
        by_cases hc : status.status = CompStatus.completed
        · rw [if_pos hc] at h
          have : WaitResult.mk status.result (some 0) = r := by
            injection h with h1 h2
            injection h1
          rw [← this]
        · rw [if_neg hc] at h
          by_cases hf : status.status = CompStatus.failed
          · rw [if_pos hf] at h; simp at h
          · rw [if_neg hf] at h
            exact ih (k + 1) r t h
    · rw [if_neg hk] at h
      simp at h

/-- If every poll before k is successful and non-terminal and poll k
reports completed, the wait returns the completed payload at elapsed
time k * pollInterval. -/
lemma waitFrom_completes_at (env : NetworkEnv) (cid : String) (k : Nat)
    (d : StatusData) (hk : k * pollInterval < maxWaitTime)
    (hprev : ∀ j, j < k → pollNonterminal env j = true)
    (hstat : env.statusAt k = .ok d) (hc : d.status = .completed) :
    waitForComputationCompletion env cid
      = ⟨.ok ⟨d.result, some 0⟩, k * pollInterval⟩ := by
  have hle : k * pollInterval ≤ maxWaitTime := Nat.le_of_lt hk
  rw [waitFrom_after_skips env cid k hle hprev]
  have hk60 : k ≤ 60 := by
    simp only [pollInterval, maxWaitTime] at hle; omega
  have hfuel : 61 - k = (60 - k) + 1 := by omega
  rw [hfuel]
  simp only [waitFrom, getComputationStatusAt, hstat, if_pos hk]
  rw [hc]
  simp

/-- If every poll before k is successful and non-terminal and poll k
reports failed, the wait throws the remote error message at elapsed
time k * pollInterval. -/
lemma waitFrom_fails_at (env : NetworkEnv) (cid : String) (k : Nat)
    (d : StatusData) (hk : k * pollInterval < maxWaitTime)
    (hprev : ∀ j, j < k → pollNonterminal env j = true)
    (hstat : env.statusAt k = .ok d) (hf : d.status = .failed) :
    waitForComputationCompletion env cid
      = ⟨.error ("Computation failed: " ++ errString d.error),
         k * pollInterval⟩ := by
  have hle : k * pollInterval ≤ maxWaitTime := Nat.le_of_lt hk
  rw [waitFrom_after_skips env cid k hle hprev]
  have hfuel : 61 - k = (60 - k) + 1 := by
    simp only [pollInterval, maxWaitTime] at hle; omega
  rw [hfuel]
  simp only [waitFrom, getComputationStatusAt, hstat, if_pos hk]
  rw [hf]
  simp

/-- If every poll before k is successful and non-terminal and poll k
suffers a transport failure, the wait rethrows the status-lookup error
at elapsed time k * pollInterval. -/
lemma waitFrom_pollError_at (env : NetworkEnv) (cid : String) (k : Nat)
    (e : String) (hk : k * pollInterval < maxWaitTime)
    (hprev : ∀ j, j < k → pollNonterminal env j = true)
    (hstat : env.statusAt k = .error e) :
    waitForComputationCompletion env cid
      = ⟨.error "Failed to retrieve computation status",
         k * pollInterval⟩ := by
  have hle : k * pollInterval ≤ maxWaitTime := Nat.le_of_lt hk
  rw [waitFrom_after_skips env cid k hle hprev]
  have hfuel : 61 - k = (60 - k) + 1 := by
    simp only [pollInterval, maxWaitTime] at hle; omega
  rw [hfuel]
  simp only [waitFrom, getComputationStatusAt, hstat, if_pos hk]

/-- If every poll inside the window is successful and non-terminal, the
wait throws "Computation timeout" at elapsed time exactly maxWaitTime. -/
lemma waitFrom_times_out (env : NetworkEnv) (cid : String)
    (hall : ∀ j, j * pollInterval < maxWaitTime →
      pollNonterminal env j = true) :
    waitForComputationCompletion env cid
      = ⟨.error "Computation timeout", maxWaitTime⟩ := by
  have hle : 60 * pollInterval ≤ maxWaitTime := by
    simp [pollInterval, maxWaitTime]
  have hprev : ∀ j, j < 60 → pollNonterminal env j = true := by
    intro j hj
    apply hall
    simp only [pollInterval, maxWaitTime]
    omega
  rw [waitFrom_after_skips env cid 60 hle hprev]
  have h1 : (61 : Nat) - 60 = 0 + 1 := by omega
  rw [h1]
  simp only [waitFrom]
  rw [if_neg (by simp [pollInterval, maxWaitTime])]
  simp [pollInterval, maxWaitTime]

/-- The composite operation either succeeds or produces a failure record
carrying an error message and an elapsed time: no branch escapes the
top-level catch. -/
lemma perform_shape (env : NetworkEnv) (request : ArciumComputationRequest) :
    (performEncryptedComputation env request).success = true
    ∨ ∃ e t, performEncryptedComputation env request
        = { success := false, error := some e, executionTime := some t } := by
  cases h1 : getAvailableMXE env with
  | none =>
      right
      exact ⟨"No available MXE found", 0,
        by simp only [performEncryptedComputation, h1]⟩
  | some mxe =>
    cases h2 : encryptInputs env request.inputs mxe.publicKey with
    | error e =>
        right
        exact ⟨e, 0, by simp only [performEncryptedComputation, h1, h2]⟩
    | ok enc =>
      cases h3 : submitComputation env with
      | error e =>
          right
          exact ⟨e, 0, by simp only [performEncryptedComputation, h1, h2, h3]⟩
      | ok cid =>
        cases h4 : waitForComputationCompletion env cid with
        | mk outcome elapsed =>
          cases outcome with
          | error e =>
              right
              exact ⟨e, elapsed,
                by simp only [performEncryptedComputation, h1, h2, h3, h4]⟩
          | ok r =>
              left
              simp only [performEncryptedComputation, h1, h2, h3, h4]

/-- Unfolding the composite operation when the first three steps succeed
and the wait loop throws. -/
lemma perform_wait_error (env : NetworkEnv)
    (request : ArciumComputationRequest) (mxe : MXEInfo)
    (enc : EncryptedInputs) (cid : String) (e : String) (t : Nat)
    (h1 : getAvailableMXE env = some mxe)
    (h2 : encryptInputs env request.inputs mxe.publicKey = .ok enc)
    (h3 : submitComputation env = .ok cid)
    (h4 : waitForComputationCompletion env cid = ⟨.error e, t⟩) :
    performEncryptedComputation env request
      = { success := false, error := some e, executionTime := some t } := by
  simp only [performEncryptedComputation, h1, h2, h3, h4]

/-- Unfolding the composite operation when the first three steps succeed
and the wait loop returns a completed payload. -/
lemma perform_wait_ok (env : NetworkEnv)
    (request : ArciumComputationRequest) (mxe : MXEInfo)
    (enc : EncryptedInputs) (cid : String) (r : WaitResult) (t : Nat)
    (h1 : getAvailableMXE env = some mxe)
    (h2 : encryptInputs env request.inputs mxe.publicKey = .ok enc)
    (h3 : submitComputation env = .ok cid)
    (h4 : waitForComputationCompletion env cid = ⟨.ok r, t⟩) :
    performEncryptedComputation env request
      = { success := true, result := r.data, computationId := some cid,
          executionTime := some t, gasUsed := some (numOrZero r.gasUsed) } := by
  simp only [performEncryptedComputation, h1, h2, h3, h4]

/-- A falsy left operand makes the JavaScript default kick in. -/
lemma jsOr_of_falsy (v d : JSValue) (h : truthy v = false) : jsOr v d = d := by
  simp [jsOr, h]

/-- Unpacking of a successful risk assessment whose payload is an array:
each named field is the positional read defaulted through truthiness. -/
lemma risk_unpack (env : NetworkEnv) (p : JSValue) (xs : List JSValue)
    (hsucc : (performEncryptedComputation env (riskRequest env p)).success = true)
    (hres : (performEncryptedComputation env (riskRequest env p)).result = .arr xs) :
    performEncryptedRiskAssessment env p
      = .ok ⟨jsOr (xs.getD 0 .undefined) (.num 50),
             jsOr (xs.getD 1 .undefined) (.bool false),
             jsOr (xs.getD 2 .undefined) (.num 0),
             jsOr (xs.getD 3 .undefined) (.num 0.5)⟩ := by
  simp only [performEncryptedRiskAssessment, hsucc, hres, if_true]
  simp [jsIndex, Except.bind]

/-- Unpacking of a successful collateral validation whose payload is an
array. -/
lemma collateral_unpack (env : NetworkEnv) (cv la : ℚ) (ys : List JSValue)
    (hsucc : (performEncryptedComputation env
        (collateralRequest env cv la)).success = true)
    (hres : (performEncryptedComputation env
        (collateralRequest env cv la)).result = .arr ys) :
    performEncryptedCollateralValidation env cv la
      = .ok ⟨jsOr (ys.getD 0 .undefined) (.bool false),
             jsOr (ys.getD 1 .undefined) (.num 0),
             jsOr (ys.getD 2 .undefined) (.num 1.5)⟩ := by
  simp only [performEncryptedCollateralValidation, hsucc, hres, if_true]
  simp [jsIndex, Except.bind]

/-- A status body that stays pending. -/
def pendingStatusD : StatusData :=
  ⟨.pending, .num 10, .undefined, none, "2026-01-01T00:00:00Z", none⟩

/-- A completed status body whose result is the empty array. -/
def completedEmptyD : StatusData :=
  ⟨.completed, .num 100, .arr [], none, "2026-01-01T00:00:00Z",
   some "2026-01-01T00:00:05Z"⟩

/-- A completed status body whose result is the number 7 (a non-array
primitive). -/
def completedNumD : StatusData :=
  ⟨.completed, .num 100, .num 7, none, "2026-01-01T00:00:00Z",
   some "2026-01-01T00:00:05Z"⟩

/-- A completed status body whose result field is absent (undefined). -/
def completedUndefD : StatusData :=
  ⟨.completed, .num 100, .undefined, none, "2026-01-01T00:00:00Z",
   some "2026-01-01T00:00:05Z"⟩

/-- A completed status body whose result field is null. -/
def completedNullD : StatusData :=
  ⟨.completed, .num 100, .null, none, "2026-01-01T00:00:00Z",
   some "2026-01-01T00:00:05Z"⟩

/-- A failed status body carrying the remote error message. -/
def failedBadInputD : StatusData :=
  ⟨.failed, .num 100, .undefined, some "bad input", "2026-01-01T00:00:00Z",
   some "2026-01-01T00:00:05Z"⟩

/-- An environment whose node listing, cryptography and submission all
succeed, parameterized by the status-poll responses; the remaining
accessors all suffer transport failures. -/
def happyBase (st : Nat → Except String StatusData) : NetworkEnv :=
  { mxeAvailable := .ok [⟨"mxe-1", "pk-1", 5⟩]
  , rsaKeyGen := .ok ("rsa-pub", "rsa-priv")
  , nonceHex := "0011"
  , aesEncrypt := fun _ _ => .ok "ciphertext"
  , submitResp := .ok (some "comp-1")
  , statusAt := st
  , networkStatusResp := .error "network unreachable"
  , historyResp := fun _ => .error "network unreachable"
  , functionsResp := .error "network unreachable"
  , nowISO := "2026-01-01T00:00:00Z" }

/-- Environment with an empty node list. -/
def envNoMXE : NetworkEnv :=
  { happyBase (fun _ => .ok pendingStatusD) with mxeAvailable := .ok [] }

/-- Environment whose first poll already reports completed with an empty
result array. -/
def envCompletedEmpty : NetworkEnv :=
  happyBase (fun _ => .ok completedEmptyD)

/-- Environment whose first poll reports completed with the number 7 as
payload. -/
def envCompletedNum : NetworkEnv :=
  happyBase (fun _ => .ok completedNumD)

/-- Environment whose first poll reports completed with an absent
payload. -/
def envCompletedUndef : NetworkEnv :=
  happyBase (fun _ => .ok completedUndefD)

/-- Environment whose first poll reports completed with a null payload. -/
def envCompletedNull : NetworkEnv :=
  happyBase (fun _ => .ok completedNullD)

/-- Environment whose first poll reports failed with error bad input. -/
def envFailedBadInput : NetworkEnv :=
  happyBase (fun _ => .ok failedBadInputD)

/-- Environment that reports pending forever. -/
def envAlwaysPending : NetworkEnv :=
  happyBase (fun _ => .ok pendingStatusD)

/-- Environment that reports pending for the first sixty polls and
completed from poll sixty on, i.e. completion arrives only at the
ceiling. -/
def envLateCompleted : NetworkEnv :=
  happyBase (fun k => if k < 60 then .ok pendingStatusD else .ok completedEmptyD)

/-- Environment whose polls are pending twice and then hit a transport
failure. -/
def envPollError : NetworkEnv :=
  happyBase (fun k => if k < 2 then .ok pendingStatusD
    else .error "socket hang up")

/-- Claim C1: when the remote node-listing call returns an empty list,
performEncryptedComputation produces a ComputationResult with success
false, error "No available MXE found" and a nonnegative executionTime;
the composite operation raises nothing, which the embedding expresses by
its total return type ArciumComputationResult. -/
theorem claim_C1_no_mxe (env : NetworkEnv) (request : ArciumComputationRequest)
    (h : env.mxeAvailable = .ok []) :
    (performEncryptedComputation env request).success = false
    ∧ (performEncryptedComputation env request).error
        = some "No available MXE found"
    ∧ ∃ t, (performEncryptedComputation env request).executionTime = some t
        ∧ 0 ≤ t := by
  have hm : getAvailableMXE env = none := by simp [getAvailableMXE, h]
  refine ⟨?_, ?_, 0, ?_, Nat.zero_le 0⟩ <;>
    simp only [performEncryptedComputation, hm]

/-- Claim C1, witness: the hypothesis and the conclusion at the concrete
environment with an empty node list. -/
theorem claim_C1_no_mxe_witness :
    envNoMXE.mxeAvailable = .ok []
    ∧ ((performEncryptedComputation envNoMXE
          ⟨"riskAssessment", [.num 1], none⟩).success = false
       ∧ (performEncryptedComputation envNoMXE
            ⟨"riskAssessment", [.num 1], none⟩).error
           = some "No available MXE found"
       ∧ ∃ t, (performEncryptedComputation envNoMXE
            ⟨"riskAssessment", [.num 1], none⟩).executionTime = some t
           ∧ 0 ≤ t) :=
  ⟨rfl, claim_C1_no_mxe envNoMXE ⟨"riskAssessment", [.num 1], none⟩ rfl⟩

/-- Claim C4: on any transport or remote failure getNetworkStatus
returns the fixed disconnected/zero record (with networkHealth "error")
instead of propagating the failure; it raises nothing, which the
embedding expresses by its total return type. -/
theorem claim_C4_network_default (env : NetworkEnv) (e : String)
    (h : env.networkStatusResp = .error e) :
    getNetworkStatus env
      = ⟨.bool false, .num 0, .num 0, .str "error", .num 0, .num 0⟩ := by
  simp [getNetworkStatus, h]

/-- Claim C4, witness: the hypothesis and the conclusion at the concrete
environment whose network-status call fails. -/
theorem claim_C4_network_default_witness :
    envNoMXE.networkStatusResp = .error "network unreachable"
    ∧ getNetworkStatus envNoMXE
        = ⟨.bool false, .num 0, .num 0, .str "error", .num 0, .num 0⟩ :=
  ⟨rfl, claim_C4_network_default envNoMXE "network unreachable" rfl⟩

/-- Claim C6: on transport failure getComputationHistory returns the
empty list and getAvailableFunctions returns the hardcoded list of three
function names, neither raising an error. -/
theorem claim_C6_defaults (env : NetworkEnv) (limit : Nat) (e1 e2 : String)
    (h1 : env.historyResp limit = .error e1)
    (h2 : env.functionsResp = .error e2) :
    getComputationHistory env limit = .arr []
    ∧ getAvailableFunctions env
        = .arr [.str "riskAssessment", .str "collateralValidation",
                .str "interestCalculation"] := by
  constructor
  · simp [getComputationHistory, h1]
  · simp [getAvailableFunctions, h2]

/-- Claim C6, witness: hypotheses and conclusion at the concrete
environment whose accessors fail. -/
theorem claim_C6_defaults_witness :
    envNoMXE.historyResp 50 = .error "network unreachable"
    ∧ envNoMXE.functionsResp = .error "network unreachable"
    ∧ (getComputationHistory envNoMXE 50 = .arr []
       ∧ getAvailableFunctions envNoMXE
           = .arr [.str "riskAssessment", .str "collateralValidation",
                   .str "interestCalculation"]) :=
  ⟨rfl, rfl,
   claim_C6_defaults envNoMXE 50 "network unreachable" "network unreachable"
     rfl rfl⟩

/-- Claim C7: a transport error during the status lookup makes
getComputationStatus propagate a thrown error (the embedding keeps it in
the error branch of the Except result) rather than substituting a
default. -/
theorem claim_C7_status_propagates (env : NetworkEnv) (cid : String)
    (k : Nat) (e : String) (h : env.statusAt k = .error e) :
    getComputationStatusAt env cid k
      = .error "Failed to retrieve computation status" := by
  simp [getComputationStatusAt, h]

/-- Claim C7, witness: the hypothesis and the conclusion at the concrete
environment whose third poll fails. -/
theorem claim_C7_status_propagates_witness :
    envPollError.statusAt 2 = .error "socket hang up"
    ∧ getComputationStatusAt envPollError "comp-1" 2
        = .error "Failed to retrieve computation status" :=
  ⟨rfl, claim_C7_status_propagates envPollError "comp-1" 2 "socket hang up" rfl⟩

/-- Claim C8: every successful run of performEncryptedComputation
reports gasUsed 0, because the wait loop always returns gasUsed 0
regardless of the remote response. -/
theorem claim_C8_gas_zero (env : NetworkEnv)
    (request : ArciumComputationRequest)
    (h : (performEncryptedComputation env request).success = true) :
    (performEncryptedComputation env request).gasUsed = some 0 := by
  cases h1 : getAvailableMXE env with
  | none =>
      simp only [performEncryptedComputation, h1] at h
      exact absurd h (by simp)
  | some mxe =>
    cases h2 : encryptInputs env request.inputs mxe.publicKey with
    | error e =>
        simp only [performEncryptedComputation, h1, h2] at h
        exact absurd h (by simp)
    | ok enc =>
      cases h3 : submitComputation env with
      | error e =>
          simp only [performEncryptedComputation, h1, h2, h3] at h
          exact absurd h (by simp)
      | ok cid =>
        cases h4 : waitForComputationCompletion env cid with
        | mk outcome elapsed =>
          cases outcome with
          | error e =>
              simp only [performEncryptedComputation, h1, h2, h3, h4] at h
              exact absurd h (by simp)
          | ok r =>
              have hg : r.gasUsed = some 0 :=
                waitFrom_ok_gasUsed env cid (maxWaitTime / pollInterval + 1)
                  0 r elapsed h4
              simp [performEncryptedComputation, h1, h2, h3, h4, hg,
                numOrZero]

/-- Claim C8, witness: the hypothesis and the conclusion at the concrete
environment whose computation completes at the first poll. -/
theorem claim_C8_gas_zero_witness :
    (performEncryptedComputation envCompletedEmpty
       ⟨"riskAssessment", [.num 1], none⟩).success = true
    ∧ (performEncryptedComputation envCompletedEmpty
         ⟨"riskAssessment", [.num 1], none⟩).gasUsed = some 0 :=
  ⟨rfl, claim_C8_gas_zero envCompletedEmpty
     ⟨"riskAssessment", [.num 1], none⟩ rfl⟩

/-- Claim C3: every exception raised inside the four steps of
performEncryptedComputation is caught at the top level and converted into
a failure result carrying the message and the elapsed time; in
particular, a poll that reports failed with remote error "bad input"
yields a failure result containing exactly that message. -/
theorem claim_C3_catch_all (env : NetworkEnv)
    (request : ArciumComputationRequest) :
    ((performEncryptedComputation env request).success = false →
      ∃ e t, performEncryptedComputation env request
        = { success := false, error := some e, executionTime := some t })
    ∧ (∀ (mxe : MXEInfo) (enc : EncryptedInputs) (cid : String)
         (k : Nat) (d : StatusData),
        getAvailableMXE env = some mxe →
        encryptInputs env request.inputs mxe.publicKey = .ok enc →
        submitComputation env = .ok cid →
        k * pollInterval < maxWaitTime →
        (∀ j, j < k → pollNonterminal env j = true) →
        env.statusAt k = .ok d →
        d.status = .failed →
        d.error = some "bad input" →
        performEncryptedComputation env request
          = { success := false,
              error := some "Computation failed: bad input",
              executionTime := some (k * pollInterval) }) := by
  constructor
  · intro hfail
    rcases perform_shape env request with hs | ⟨e, t, he⟩
    · rw [hs] at hfail; exact absurd hfail (by simp)
    · exact ⟨e, t, he⟩
  · intro mxe enc cid k d h1 h2 h3 hk hprev hstat hf herr
    have hw := waitFrom_fails_at env cid k d hk hprev hstat hf
    have hp := perform_wait_error env request mxe enc cid
      ("Computation failed: " ++ errString d.error) (k * pollInterval)
      h1 h2 h3 hw
    rw [hp, herr]
    rfl

/-- Claim C3, witness: the concrete environment whose first poll reports
failed with remote error "bad input". -/
theorem claim_C3_catch_all_witness :
    envFailedBadInput.statusAt 0 = .ok failedBadInputD
    ∧ failedBadInputD.error = some "bad input"
    ∧ performEncryptedComputation envFailedBadInput
        ⟨"riskAssessment", [.num 1], none⟩
      = { success := false,
          error := some "Computation failed: bad input",
          executionTime := some (0 * pollInterval) } :=
  ⟨rfl, rfl,
   (claim_C3_catch_all envFailedBadInput
      ⟨"riskAssessment", [.num 1], none⟩).2
     ⟨"mxe-1", "pk-1", 5⟩ ⟨"ciphertext", "0011", "rsa-pub"⟩ "comp-1" 0
     failedBadInputD rfl rfl rfl (by decide)
     (fun j hj => absurd hj (Nat.not_lt_zero j)) rfl rfl rfl⟩

/-- Claim C9: a transport failure on one status poll terminates the wait
loop at that poll (the error is rethrown, not retried), and the
composite operation then returns success false carrying the status-lookup
error and the elapsed time of that poll. -/
theorem claim_C9_poll_error_stops (env : NetworkEnv)
    (request : ArciumComputationRequest) (mxe : MXEInfo)
    (enc : EncryptedInputs) (cid : String) (k : Nat) (e : String)
    (h1 : getAvailableMXE env = some mxe)
    (h2 : encryptInputs env request.inputs mxe.publicKey = .ok enc)
    (h3 : submitComputation env = .ok cid)
    (hk : k * pollInterval < maxWaitTime)
    (hprev : ∀ j, j < k → pollNonterminal env j = true)
    (hstat : env.statusAt k = .error e) :
    waitForComputationCompletion env cid
      = ⟨.error "Failed to retrieve computation status", k * pollInterval⟩
    ∧ performEncryptedComputation env request
      = { success := false,
          error := some "Failed to retrieve computation status",
          executionTime := some (k * pollInterval) } := by
  have hw := waitFrom_pollError_at env cid k e hk hprev hstat
  exact ⟨hw, perform_wait_error env request mxe enc cid
    "Failed to retrieve computation status" (k * pollInterval) h1 h2 h3 hw⟩

/-- Claim C9, witness: the concrete environment whose polls are pending
twice and then hit a transport failure; the loop stops at poll two. -/
theorem claim_C9_poll_error_stops_witness :
    envPollError.statusAt 2 = .error "socket hang up"
    ∧ (waitForComputationCompletion envPollError "comp-1"
        = ⟨.error "Failed to retrieve computation status", 2 * pollInterval⟩
      ∧ performEncryptedComputation envPollError
          ⟨"riskAssessment", [.num 1], none⟩
        = { success := false,
            error := some "Failed to retrieve computation status",
            executionTime := some (2 * pollInterval) }) :=
  ⟨rfl,
   claim_C9_poll_error_stops envPollError
     ⟨"riskAssessment", [.num 1], none⟩ ⟨"mxe-1", "pk-1", 5⟩
     ⟨"ciphertext", "0011", "rsa-pub"⟩ "comp-1" 2 "socket hang up"
     rfl rfl rfl (by decide) (by decide) rfl⟩

/-- Claim C2, counterexample: a status sequence that reaches completed —
at poll sixty, the first poll at or past the ceiling — yet the loop
returns the timeout error at the ceiling instead of the completed
result, refuting the claim as stated for sequences whose completion
arrives only at or after the ceiling. -/
theorem claim_C2_counterexample :
    (∃ k d, envLateCompleted.statusAt k = .ok d ∧ d.status = .completed)
    ∧ waitForComputationCompletion envLateCompleted "comp-1"
        = ⟨.error "Computation timeout", maxWaitTime⟩ := by
  constructor
  · exact ⟨60, completedEmptyD, rfl, rfl⟩
  · apply waitFrom_times_out
    intro j hj
    have hj60 : j < 60 := by
      simp only [pollInterval, maxWaitTime] at hj; omega
    simp [pollNonterminal, envLateCompleted, happyBase, hj60, pendingStatusD]

/-- Claim C2 (amended): the poll loop checks status at a fixed 5000 ms
interval up to a 300000 ms ceiling, polling at the instants k * 5000 ms
below the ceiling.  For every status sequence whose polls succeed and
stay non-terminal until a poll strictly before the ceiling reports
completed, the loop returns the completed result at that instant, before
the ceiling elapses; for every status sequence whose polls all succeed
with statuses that never reach a terminal state, the loop fails with the
timeout error at exactly the ceiling duration. -/
theorem claim_C2_poll_bounds (env : NetworkEnv) (cid : String) :
    (pollInterval = 5000 ∧ maxWaitTime = 300000)
    ∧ (∀ k d, k * pollInterval < maxWaitTime →
        (∀ j, j < k → pollNonterminal env j = true) →
        env.statusAt k = .ok d → d.status = .completed →
        waitForComputationCompletion env cid
          = ⟨.ok ⟨d.result, some 0⟩, k * pollInterval⟩
        ∧ k * pollInterval < maxWaitTime)
    ∧ ((∀ j, j * pollInterval < maxWaitTime → pollNonterminal env j = true) →
        waitForComputationCompletion env cid
          = ⟨.error "Computation timeout", maxWaitTime⟩) := by
  refine ⟨⟨rfl, rfl⟩, ?_, ?_⟩
  · intro k d hk hprev hstat hc
    exact ⟨waitFrom_completes_at env cid k d hk hprev hstat hc, hk⟩
  · intro hall
    exact waitFrom_times_out env cid hall

/-- Claim C2, witness: completion at the first poll returns the result
at instant zero, and the always-pending sequence times out at exactly
the ceiling. -/
theorem claim_C2_poll_bounds_witness :
    (waitForComputationCompletion envCompletedEmpty "comp-1"
       = ⟨.ok ⟨completedEmptyD.result, some 0⟩, 0 * pollInterval⟩
     ∧ 0 * pollInterval < maxWaitTime)
    ∧ waitForComputationCompletion envAlwaysPending "comp-1"
       = ⟨.error "Computation timeout", maxWaitTime⟩ :=
  ⟨(claim_C2_poll_bounds envCompletedEmpty "comp-1").2.1 0 completedEmptyD
     (by decide) (fun j hj => absurd hj (Nat.not_lt_zero j)) rfl rfl,
   (claim_C2_poll_bounds envAlwaysPending "comp-1").2.2 (fun j _ => rfl)⟩

/-- Claim C5: for a successful underlying computation whose result array
has fewer than four entries, or falsy values at a position, the
risk-assessment wrapper defaults riskScore to 50, approved to false,
maxAmount to 0 and confidence to 0.5, and the collateral-validation
wrapper defaults requiredRatio (field requiredRatioValue here) to 1.5. -/
theorem claim_C5_wrapper_defaults (env : NetworkEnv) (p : JSValue)
    (xs : List JSValue) (cv la : ℚ) (ys : List JSValue) :
    ((performEncryptedComputation env (riskRequest env p)).success = true →
     (performEncryptedComputation env (riskRequest env p)).result = .arr xs →
     xs.length < 4 →
     ∃ o, performEncryptedRiskAssessment env p = .ok o
       ∧ o.confidence = .num 0.5
       ∧ (truthy (xs.getD 0 .undefined) = false → o.riskScore = .num 50)
       ∧ (truthy (xs.getD 1 .undefined) = false → o.approved = .bool false)
       ∧ (truthy (xs.getD 2 .undefined) = false → o.maxAmount = .num 0))
    ∧ ((performEncryptedComputation env
          (collateralRequest env cv la)).success = true →
       (performEncryptedComputation env
          (collateralRequest env cv la)).result = .arr ys →
       truthy (ys.getD 2 .undefined) = false →
       ∃ o, performEncryptedCollateralValidation env cv la = .ok o
         ∧ o.requiredRatioValue = .num 1.5) := by
  constructor
  · intro hsucc hres hlen
    refine ⟨_, risk_unpack env p xs hsucc hres, ?_, ?_, ?_, ?_⟩
    · have h3 : xs.getD 3 .undefined = .undefined :=
        List.getD_eq_default xs .undefined (by omega)
      rw [h3]
      exact jsOr_of_falsy JSValue.undefined _ rfl
    · intro h0; exact jsOr_of_falsy _ _ h0
    · intro h1; exact jsOr_of_falsy _ _ h1
    · intro h2; exact jsOr_of_falsy _ _ h2
  · intro hsucc hres h2
    exact ⟨_, collateral_unpack env cv la ys hsucc hres,
      jsOr_of_falsy _ _ h2⟩

/-- Claim C5, witness: a successful computation whose result is the
empty array makes every field of both wrappers take its default. -/
theorem claim_C5_wrapper_defaults_witness :
    (performEncryptedComputation envCompletedEmpty
       (riskRequest envCompletedEmpty (.num 1))).success = true
    ∧ (∃ o, performEncryptedRiskAssessment envCompletedEmpty (.num 1) = .ok o
        ∧ o.confidence = .num 0.5
        ∧ (truthy (([] : List JSValue).getD 0 .undefined) = false →
            o.riskScore = .num 50)
        ∧ (truthy (([] : List JSValue).getD 1 .undefined) = false →
            o.approved = .bool false)
        ∧ (truthy (([] : List JSValue).getD 2 .undefined) = false →
            o.maxAmount = .num 0))
    ∧ (∃ o, performEncryptedCollateralValidation envCompletedEmpty 2 1 = .ok o
        ∧ o.requiredRatioValue = .num 1.5) :=
  ⟨rfl,
   (claim_C5_wrapper_defaults envCompletedEmpty (.num 1) [] 2 1 []).1
     rfl rfl (by decide),
   (claim_C5_wrapper_defaults envCompletedEmpty (.num 1) [] 2 1 []).2
     rfl rfl rfl⟩

/-- Claim C10, counterexample: a successful computation whose payload is
the number 7 — not an indexable sequence — does not make the
risk-assessment wrapper raise: positional reads on a non-null primitive
yield undefined, so the wrapper returns its documented defaults,
refuting the claim for payloads other than undefined and null. -/
theorem claim_C10_counterexample :
    (performEncryptedComputation envCompletedNum
       (riskRequest envCompletedNum (.num 1))).success = true
    ∧ (performEncryptedComputation envCompletedNum
         (riskRequest envCompletedNum (.num 1))).result = .num 7
    ∧ performEncryptedRiskAssessment envCompletedNum (.num 1)
        = .ok ⟨.num 50, .bool false, .num 0, .num 0.5⟩ :=
  ⟨rfl, rfl, rfl⟩

/-- Claim C10 (amended): if the underlying computation reports success
but its result payload is absent (undefined) or null, each domain
wrapper — risk assessment, collateral validation, interest calculation —
raises a raw indexing TypeError while unpacking positions (with the
matching "of undefined" or "of null" message), rather than returning its
documented defaults or a domain-specific error; a numeric payload such
as 7, though not an indexable sequence, does not raise — indexing it
yields undefined and the wrapper returns its defaults (the
counterexample exhibits this). -/
theorem claim_C10_nonindexable_payload (env : NetworkEnv) (p : JSValue)
    (cv la pr rt tm : ℚ) :
    ((performEncryptedComputation env (riskRequest env p)).success = true →
     (performEncryptedComputation env (riskRequest env p)).result = .undefined →
     performEncryptedRiskAssessment env p
       = .error "TypeError: cannot read property 0 of undefined")
    ∧ ((performEncryptedComputation env (riskRequest env p)).success = true →
       (performEncryptedComputation env (riskRequest env p)).result = .null →
       performEncryptedRiskAssessment env p
         = .error "TypeError: cannot read property 0 of null")
    ∧ ((performEncryptedComputation env
          (collateralRequest env cv la)).success = true →
       (performEncryptedComputation env
          (collateralRequest env cv la)).result = .undefined →
       performEncryptedCollateralValidation env cv la
         = .error "TypeError: cannot read property 0 of undefined")
    ∧ ((performEncryptedComputation env
          (collateralRequest env cv la)).success = true →
       (performEncryptedComputation env
          (collateralRequest env cv la)).result = .null →
       performEncryptedCollateralValidation env cv la
         = .error "TypeError: cannot read property 0 of null")
    ∧ ((performEncryptedComputation env
          (interestRequest env pr rt tm)).success = true →
       (performEncryptedComputation env
          (interestRequest env pr rt tm)).result = .undefined →
       performEncryptedInterestCalculation env pr rt tm
         = .error "TypeError: cannot read property 0 of undefined")
    ∧ ((performEncryptedComputation env
          (interestRequest env pr rt tm)).success = true →
       (performEncryptedComputation env
          (interestRequest env pr rt tm)).result = .null →
       performEncryptedInterestCalculation env pr rt tm
         = .error "TypeError: cannot read property 0 of null") := by
  refine ⟨?_, ?_, ?_, ?_, ?_, ?_⟩
  · intro hsucc hres
    simp only [performEncryptedRiskAssessment, hsucc, hres, if_true]
    rfl
  · intro hsucc hres
    simp only [performEncryptedRiskAssessment, hsucc, hres, if_true]
    rfl
  · intro hsucc hres
    simp only [performEncryptedCollateralValidation, hsucc, hres, if_true]
    rfl
  · intro hsucc hres
    simp only [performEncryptedCollateralValidation, hsucc, hres, if_true]
    rfl
  · intro hsucc hres
    simp only [performEncryptedInterestCalculation, hsucc, hres, if_true]
    rfl
  · intro hsucc hres
    simp only [performEncryptedInterestCalculation, hsucc, hres, if_true]
    rfl

/-- Claim C10, witness: the concrete environments whose computation
completes with an absent payload and with a null payload make all three
wrappers raise the matching TypeError. -/
theorem claim_C10_nonindexable_payload_witness :
    (performEncryptedComputation envCompletedUndef
       (riskRequest envCompletedUndef (.num 1))).success = true
    ∧ (performEncryptedComputation envCompletedNull
         (riskRequest envCompletedNull (.num 1))).success = true
    ∧ performEncryptedRiskAssessment envCompletedUndef (.num 1)
        = .error "TypeError: cannot read property 0 of undefined"
    ∧ performEncryptedRiskAssessment envCompletedNull (.num 1)
        = .error "TypeError: cannot read property 0 of null"
    ∧ performEncryptedCollateralValidation envCompletedUndef 2 1
        = .error "TypeError: cannot read property 0 of undefined"
    ∧ performEncryptedCollateralValidation envCompletedNull 2 1
        = .error "TypeError: cannot read property 0 of null"
    ∧ performEncryptedInterestCalculation envCompletedUndef 1000 5 12
        = .error "TypeError: cannot read property 0 of undefined"
    ∧ performEncryptedInterestCalculation envCompletedNull 1000 5 12
        = .error "TypeError: cannot read property 0 of null" :=
  ⟨rfl, rfl,
   (claim_C10_nonindexable_payload envCompletedUndef (.num 1)
      2 1 1000 5 12).1 rfl rfl,
   (claim_C10_nonindexable_payload envCompletedNull (.num 1)
      2 1 1000 5 12).2.1 rfl rfl,
   (claim_C10_nonindexable_payload envCompletedUndef (.num 1)
      2 1 1000 5 12).2.2.1 rfl rfl,
   (claim_C10_nonindexable_payload envCompletedNull (.num 1)
      2 1 1000 5 12).2.2.2.1 rfl rfl,
   (claim_C10_nonindexable_payload envCompletedUndef (.num 1)
      2 1 1000 5 12).2.2.2.2.1 rfl rfl,
   (claim_C10_nonindexable_payload envCompletedNull (.num 1)
      2 1 1000 5 12).2.2.2.2.2 rfl rfl⟩

end ArciumSpec
